import Mathlib

/-!
NodeToCode: model registry, settings validation and the OpenAI request pipeline

A shallow embedding of

* `Source/Public/LLM/N2CLLMModels.h`, `Source/Private/LLM/N2CLLMModels.cpp`
  (model enums, wire names, static pricing maps and their lookups),
* `Source/Private/Core/N2CSettings.cpp`
  (`GetActiveModel`, `InitializePricing`, `ValidateReferenceSourcePaths`),
* `Source/Private/LLM/Providers/N2COpenAIService.cpp`
  (`SupportsSystemPromptsForModel`, `GetConfiguration`, `GetProviderHeaders`,
  `FormatRequestPayload`),

followed by the theorems that settle the claims C1 .. C10 about them.

Conventions of the embedding:

* an engine string (`FString`) is its sequence of characters; the engine's
  comparison operators are modelled with their documented case handling;
* an engine map (`TMap`) is the list of its pairs, `Add` replacing the pair whose
  key matches and appending otherwise, `Find` returning the first matching pair;
* a `float` literal is the exact decimal written in the source, as a rational;
* an `enum class E : uint8` value is its underlying byte (`Fin 256`);
* mutation of an object is explicit state passing; log output is returned.
-/

namespace N2C

/-! ## Engine strings -/

/-- An engine string: the characters it holds. -/
structure FString where
  data : List Char
deriving DecidableEq

/-- The `TEXT("...")` literal of the source. -/
def TEXT (s : String) : FString := ⟨s.data⟩

/-- Concatenation of engine strings (`operator+`, and `%s` inside `Printf`). -/
def FString.Append (a b : FString) : FString := ⟨a.data ++ b.data⟩

instance : Append FString := ⟨FString.Append⟩

/-- `FString::IsEmpty()`. -/
def FString.IsEmpty (s : FString) : Bool := s.data.isEmpty

/-- `ESearchCase::Type` of the engine. -/
inductive ESearchCase where
  | CaseSensitive
  | IgnoreCase
deriving DecidableEq

/-- The characters as the engine compares them under a search case: unchanged when
case sensitive, ASCII-lowered when case is ignored. -/
def FString.Folded (s : FString) : ESearchCase → List Char
  | .CaseSensitive => s.data
  | .IgnoreCase => s.data.map Char.toLower

/-- `FString::Equals(Other, SearchCase)`. -/
def FString.Equals (a b : FString) (SearchCase : ESearchCase) : Bool :=
  decide (a.Folded SearchCase = b.Folded SearchCase)

/-- `operator==` on engine strings: the engine compares ignoring case. -/
def FString.OpEq (a b : FString) : Bool := a.Equals b ESearchCase.IgnoreCase

/-- `operator!=` on engine strings. -/
def FString.OpNe (a b : FString) : Bool := !(a.OpEq b)

/-- `FString::StartsWith(InPrefix, SearchCase)`: false for an empty argument, otherwise
the comparison of the first `Len(InPrefix)` characters under the search case. -/
def FString.StartsWith (s Pre : FString) (SearchCase : ESearchCase) : Bool :=
  decide (0 < Pre.data.length) &&
    decide ((s.Folded SearchCase).take Pre.data.length = Pre.Folded SearchCase)

/-- The text `a` occurs in `b` as a contiguous run of characters. -/
def FString.IsSubstringOf (a b : FString) : Prop := a.data <:+: b.data

instance (a b : FString) : Decidable (a.IsSubstringOf b) :=
  inferInstanceAs (Decidable (a.data <:+: b.data))

/-! ## Engine maps -/

/-- The key functions of an engine map: when two keys are the same key. -/
class KeyFuncs (K : Type) where
  Matches : K → K → Bool

/-- `TMap<FString, _>` compares keys with `operator==`. -/
instance : KeyFuncs FString := ⟨FString.OpEq⟩

/-- An engine map, as the list of its pairs. -/
structure TMap (K V : Type) where
  Pairs : List (K × V)

/-- The pairs after `Add(k, v)`: the pair of a matching key is replaced, otherwise the
new pair is appended. -/
def TMap.addPair {K V : Type} [KeyFuncs K] (k : K) (v : V) : List (K × V) → List (K × V)
  | [] => [(k, v)]
  | p :: rest =>
    if KeyFuncs.Matches p.1 k then (k, v) :: rest else p :: TMap.addPair k v rest

/-- `TMap::Add(Key, Value)`. -/
def TMap.Add {K V : Type} [KeyFuncs K] (m : TMap K V) (k : K) (v : V) : TMap K V :=
  ⟨TMap.addPair k v m.Pairs⟩

/-- The value of the first pair whose key matches. -/
def TMap.findPair {K V : Type} [KeyFuncs K] (k : K) : List (K × V) → Option V
  | [] => none
  | p :: rest => if KeyFuncs.Matches p.1 k then some p.2 else TMap.findPair k rest

/-- `TMap::Find(Key)`: the value bound to the key, if any. -/
def TMap.Find {K V : Type} [KeyFuncs K] (m : TMap K V) (k : K) : Option V :=
  TMap.findPair k m.Pairs

/-- The empty map. -/
def TMap.Empty {K V : Type} : TMap K V := ⟨[]⟩

/-- Construction of a map from an initializer list: each pair is added in turn. -/
def TMap.FromInitializerList {K V : Type} [KeyFuncs K] (l : List (K × V)) : TMap K V :=
  l.foldl (fun m p => m.Add p.1 p.2) TMap.Empty

/-! ## `N2CLLMModels.h`: the model enums -/

/-- `enum class EN2COpenAIModel : uint8`: a value is its underlying byte. -/
structure EN2COpenAIModel where
  Underlying : Fin 256
deriving DecidableEq

/-- `enum class EN2CDeepSeekModel : uint8`: a value is its underlying byte. -/
structure EN2CDeepSeekModel where
  Underlying : Fin 256
deriving DecidableEq

/-- The first (and only) enumerator of `EN2COpenAIModel`. -/
def EN2COpenAIModel.GPT_5_3_Codex : EN2COpenAIModel := ⟨0⟩

/-- The first enumerator of `EN2CDeepSeekModel`. -/
def EN2CDeepSeekModel.DeepSeek_R1 : EN2CDeepSeekModel := ⟨0⟩

/-- The second enumerator of `EN2CDeepSeekModel`. -/
def EN2CDeepSeekModel.DeepSeek_V3 : EN2CDeepSeekModel := ⟨1⟩

instance : KeyFuncs EN2COpenAIModel := ⟨fun a b => decide (a = b)⟩

instance : KeyFuncs EN2CDeepSeekModel := ⟨fun a b => decide (a = b)⟩

/-- The `UMETA(...)` annotations of an enumerator. -/
structure UMETA where
  DisplayName : FString
  Value : FString
deriving DecidableEq

/-- The enumerators `EN2COpenAIModel` declares, with their metadata. -/
def EN2COpenAIModel.Declared : List (EN2COpenAIModel × UMETA) :=
  [(EN2COpenAIModel.GPT_5_3_Codex, ⟨TEXT "GPT-5.3 Codex", TEXT "gpt-5.3-codex"⟩)]

/-- The enumerators `EN2CDeepSeekModel` declares, with their metadata. -/
def EN2CDeepSeekModel.Declared : List (EN2CDeepSeekModel × UMETA) :=
  [(EN2CDeepSeekModel.DeepSeek_R1, ⟨TEXT "DeepSeek R1", TEXT "deepseek-reasoner"⟩),
   (EN2CDeepSeekModel.DeepSeek_V3, ⟨TEXT "DeepSeek V3", TEXT "deepseek-chat"⟩)]

/-! ## `N2CLLMPricing.h` (not among the sources) -/

/-- Modelled from the spec: `N2CLLMPricing.h`, which declares `FN2COpenAIPricing`, is not
among the sources. The spec's `PricingEntry` carries an input and an output cost per
million tokens; the two-argument constructor of the source takes them in that order. -/
structure FN2COpenAIPricing where
  InputCost : ℚ
  OutputCost : ℚ
deriving DecidableEq

/-- Modelled from the spec: the default constructor `FN2COpenAIPricing()`, whose
declaration is missing; the spec says an unmapped id resolves to the zero-cost entry
`{0.0, 0.0}`. -/
def FN2COpenAIPricing.Default : FN2COpenAIPricing := ⟨0.0, 0.0⟩

/-- Modelled from the spec: `N2CLLMPricing.h`, which declares `FN2CDeepSeekPricing`, is
not among the sources; see `FN2COpenAIPricing`. -/
structure FN2CDeepSeekPricing where
  InputCost : ℚ
  OutputCost : ℚ
deriving DecidableEq

/-- Modelled from the spec: the default constructor `FN2CDeepSeekPricing()`, whose
declaration is missing; the spec says an unmapped id resolves to the zero-cost entry
`{0.0, 0.0}`. -/
def FN2CDeepSeekPricing.Default : FN2CDeepSeekPricing := ⟨0.0, 0.0⟩

/-! ## `N2CLLMModels.cpp`: `FN2CLLMModelUtils` -/

namespace FN2CLLMModelUtils

/-- The initializer list of the static map `OpenAIPricing`. -/
def OpenAIPricingInit : List (EN2COpenAIModel × FN2COpenAIPricing) :=
  [(EN2COpenAIModel.GPT_5_3_Codex, ⟨0.0, 0.0⟩)]

/-- The initializer list of the static map `DeepSeekPricing`. -/
def DeepSeekPricingInit : List (EN2CDeepSeekModel × FN2CDeepSeekPricing) :=
  [(EN2CDeepSeekModel.DeepSeek_R1, ⟨0.14, 0.55⟩),
   (EN2CDeepSeekModel.DeepSeek_V3, ⟨0.07, 0.27⟩)]

/-- The static pricing map `FN2CLLMModelUtils::OpenAIPricing`. -/
def OpenAIPricing : TMap EN2COpenAIModel FN2COpenAIPricing :=
  TMap.FromInitializerList OpenAIPricingInit

/-- The static pricing map `FN2CLLMModelUtils::DeepSeekPricing`. -/
def DeepSeekPricing : TMap EN2CDeepSeekModel FN2CDeepSeekPricing :=
  TMap.FromInitializerList DeepSeekPricingInit

/-- `FN2CLLMModelUtils::GetOpenAIModelValue`: the parameter is unnamed and unused. -/
def GetOpenAIModelValue (_ : EN2COpenAIModel) : FString := TEXT "gpt-5.3-codex"

/-- `FN2CLLMModelUtils::GetDeepSeekModelValue`: the `switch` with its `default`. -/
def GetDeepSeekModelValue (Model : EN2CDeepSeekModel) : FString :=
  if Model = EN2CDeepSeekModel.DeepSeek_R1 then TEXT "deepseek-reasoner"
  else if Model = EN2CDeepSeekModel.DeepSeek_V3 then TEXT "deepseek-chat"
  else TEXT "deepseek-reasoner"

/-- `FN2CLLMModelUtils::GetOpenAIPricing`. -/
def GetOpenAIPricing (Model : EN2COpenAIModel) : FN2COpenAIPricing :=
  match OpenAIPricing.Find Model with
  | some Found => Found
  | none => FN2COpenAIPricing.Default

/-- `FN2CLLMModelUtils::GetDeepSeekPricing`. -/
def GetDeepSeekPricing (Model : EN2CDeepSeekModel) : FN2CDeepSeekPricing :=
  match DeepSeekPricing.Find Model with
  | some Found => Found
  | none => FN2CDeepSeekPricing.Default

/-- `FN2CLLMModelUtils::SupportsSystemPrompts` (inline in the header). -/
def SupportsSystemPrompts (_ : EN2COpenAIModel) : Bool := true

end FN2CLLMModelUtils

/-! ## `N2CSettings.cpp`: `UN2CSettings` -/

/-- The engine's `FFilePath`. -/
structure FFilePath where
  FilePath : FString
deriving DecidableEq

/-- The engine's `FDirectoryPath`. -/
structure FDirectoryPath where
  Path : FString
deriving DecidableEq

/-- The members of `UN2CSettings` that the embedded member functions read or write. -/
structure UN2CSettings where
  OpenAIModelPricing : TMap EN2COpenAIModel FN2COpenAIPricing
  DeepSeekModelPricing : TMap EN2CDeepSeekModel FN2CDeepSeekPricing
  ReferenceSourceFilePaths : List FFilePath
  CustomTranslationOutputDirectory : FDirectoryPath

namespace UN2CSettings

/-- `UN2CSettings::GetActiveModel`. -/
def GetActiveModel (_ : UN2CSettings) : FString :=
  FN2CLLMModelUtils.GetOpenAIModelValue EN2COpenAIModel.GPT_5_3_Codex

/-- `UN2CSettings::InitializePricing`: three `Add` calls on the two settings maps. -/
def InitializePricing (s : UN2CSettings) : UN2CSettings :=
  let OpenAI := s.OpenAIModelPricing.Add EN2COpenAIModel.GPT_5_3_Codex ⟨0.0, 0.0⟩
  let DeepSeek1 := s.DeepSeekModelPricing.Add EN2CDeepSeekModel.DeepSeek_R1 ⟨0.55, 2.19⟩
  let DeepSeek2 := DeepSeek1.Add EN2CDeepSeekModel.DeepSeek_V3 ⟨0.14, 0.28⟩
  { s with OpenAIModelPricing := OpenAI, DeepSeekModelPricing := DeepSeek2 }

/-- One iteration of the loop of `ValidateReferenceSourcePaths`: the state is the local
array `ValidPaths` and the warnings logged so far. -/
def ValidateStep (FileExists : FString → Bool) (acc : List FFilePath × List FString)
    (Path : FFilePath) : List FFilePath × List FString :=
  if FileExists Path.FilePath then
    (acc.1 ++ [Path], acc.2)
  else
    (acc.1, acc.2 ++ [TEXT "Reference source file not found: " ++ Path.FilePath])

/-- `UN2CSettings::ValidateReferenceSourcePaths`, with `FPaths::FileExists` and
`FPaths::DirectoryExists` as parameters; returns the settings and the warnings logged. -/
def ValidateReferenceSourcePaths (FileExists DirectoryExists : FString → Bool)
    (s : UN2CSettings) : UN2CSettings × List FString :=
  let loop := s.ReferenceSourceFilePaths.foldl (ValidateStep FileExists) ([], [])
  let ValidPaths := loop.1
  let s1 := { s with ReferenceSourceFilePaths := ValidPaths }
  let log :=
    if !s1.CustomTranslationOutputDirectory.Path.IsEmpty then
      if !DirectoryExists s1.CustomTranslationOutputDirectory.Path then
        loop.2 ++ [TEXT "Custom translation output directory does not exist: "
          ++ s1.CustomTranslationOutputDirectory.Path
          ++ TEXT ". Will attempt to create it when needed."]
      else loop.2
    else loop.2
  (s1, log)

/-- Settings before the constructor has run: empty maps, no reference files, no custom
output directory. -/
def Blank : UN2CSettings :=
  ⟨TMap.Empty, TMap.Empty, [], ⟨TEXT ""⟩⟩

/-- Blank settings holding the given reference paths. -/
def WithPaths (Paths : List FFilePath) : UN2CSettings :=
  { Blank with ReferenceSourceFilePaths := Paths }

end UN2CSettings

/-! ## Collaborators of the OpenAI service that are not among the sources -/

/-- The two member functions of `UN2CSystemPromptManager` the service calls; the class is
not among the sources, so the service is embedded over an arbitrary implementation.
`PrependSourceFilesToUserMessage` updates its argument in place: here it returns it. -/
structure UN2CSystemPromptManager where
  PrependSourceFilesToUserMessage : FString → FString
  MergePrompts : FString → FString → FString

/-- The spec's `ReferenceFile`. -/
structure ReferenceFile where
  Path : FString
  Content : FString

/-- Modelled from the spec: `UN2CSystemPromptManager::PrependSourceFilesToUserMessage` is
not among the sources. The spec (4.3): it concatenates each file's path and content ahead
of the original message, preserving file order; with no files the message is unchanged. -/
def SpecPrependReferenceFiles (Files : List ReferenceFile) (UserMessage : FString) : FString :=
  Files.foldr (fun f rest => f.Path ++ f.Content ++ rest) UserMessage

/-- Modelled from the spec: `UN2CSystemPromptManager::MergePrompts` is not among the
sources. The spec (4.3): system content is placed before user content with a separating
delimiter, both prompts preserved verbatim. The delimiter is a parameter. -/
def SpecMerge (Delimiter : FString) (SystemPrompt UserPrompt : FString) : FString :=
  SystemPrompt ++ Delimiter ++ UserPrompt

/-- Modelled from the spec: the prompt manager of spec section 4.3, for a configured list
of reference files and a delimiter. -/
def SpecPromptManager (Files : List ReferenceFile) (Delimiter : FString) :
    UN2CSystemPromptManager :=
  ⟨SpecPrependReferenceFiles Files, SpecMerge Delimiter⟩

/-- A call made on the payload builder. `UN2CLLMPayloadBuilder` is not among the sources:
the builder is embedded as the record of the calls made on it. -/
inductive PayloadBuilderCall where
  | Initialize (ModelName : FString)
  | ConfigureForOpenAI
  | SetTemperature (Value : ℚ)
  | SetMaxTokens (MaxTokens : Int)
  | SetJsonResponseFormat
  | AddSystemMessage (Content : FString)
  | AddUserMessage (Content : FString)
deriving DecidableEq

/-- The payload builder: the calls made on it, oldest first. -/
structure UN2CLLMPayloadBuilder where
  Calls : List PayloadBuilderCall

/-- A call on the builder is recorded after the earlier ones. -/
def UN2CLLMPayloadBuilder.Call (b : UN2CLLMPayloadBuilder) (c : PayloadBuilderCall) :
    UN2CLLMPayloadBuilder :=
  ⟨b.Calls ++ [c]⟩

/-- The role of a message of the conversation. -/
inductive Role where
  | system
  | user
deriving DecidableEq

/-- A message of the conversation. -/
structure Message where
  Role : Role
  Content : FString
deriving DecidableEq

/-- The message a builder call adds, if it adds one. -/
def PayloadBuilderCall.Message? : PayloadBuilderCall → Option Message
  | .AddSystemMessage c => some ⟨Role.system, c⟩
  | .AddUserMessage c => some ⟨Role.user, c⟩
  | _ => none

/-- The messages added to the builder, in the order they were added. -/
def UN2CLLMPayloadBuilder.Messages (b : UN2CLLMPayloadBuilder) : List Message :=
  b.Calls.filterMap PayloadBuilderCall.Message?

/-- The messages of a role added to the builder. -/
def UN2CLLMPayloadBuilder.MessagesOf (b : UN2CLLMPayloadBuilder) (r : Role) : List Message :=
  b.Messages.filter (fun m => decide (m.Role = r))

/-! ## `N2COpenAIService.cpp`: `UN2COpenAIService` -/

/-- `SupportsSystemPromptsForModel` of the anonymous namespace. `StartsWith` is called
with one argument, so with the engine's default search case, `IgnoreCase`. -/
def SupportsSystemPromptsForModel (ModelName : FString) : Bool :=
  !(ModelName.StartsWith (TEXT "o1") ESearchCase.IgnoreCase)

/-- The members of `Config` the service reads. -/
structure FN2CLLMConfig where
  ApiEndpoint : FString
  ApiKey : FString
  Model : FString

/-- The members of `UN2COpenAIService` the embedded member functions read. -/
structure UN2COpenAIService where
  Config : FN2CLLMConfig
  OrganizationId : FString
  PromptManager : UN2CSystemPromptManager

namespace UN2COpenAIService

/-- The three out-parameters of `GetConfiguration`. -/
structure Configuration where
  OutEndpoint : FString
  OutAuthToken : FString
  OutSupportsSystemPrompts : Bool

/-- `UN2COpenAIService::GetConfiguration`. -/
def GetConfiguration (self : UN2COpenAIService) : Configuration :=
  { OutEndpoint := self.Config.ApiEndpoint
    OutAuthToken := self.Config.ApiKey
    OutSupportsSystemPrompts := SupportsSystemPromptsForModel self.Config.Model }

/-- `UN2COpenAIService::GetProviderHeaders`: the in-out map is passed and returned. -/
def GetProviderHeaders (self : UN2COpenAIService) (OutHeaders : TMap FString FString) :
    TMap FString FString :=
  let h1 := OutHeaders.Add (TEXT "Authorization") (TEXT "Bearer " ++ self.Config.ApiKey)
  let h2 := h1.Add (TEXT "Content-Type") (TEXT "application/json")
  if !self.OrganizationId.IsEmpty then
    h2.Add (TEXT "OpenAI-Organization") self.OrganizationId
  else h2

/-- The state of the payload builder of `FormatRequestPayload` when `Build()` is called. -/
def FormatRequestPayloadBuilder (self : UN2COpenAIService)
    (UserMessage SystemMessage : FString) : UN2CLLMPayloadBuilder :=
  let bSupportsSystemPrompts := SupportsSystemPromptsForModel self.Config.Model
  let b0 : UN2CLLMPayloadBuilder := ⟨[]⟩
  let b1 := b0.Call (.Initialize self.Config.Model)
  let b2 := b1.Call .ConfigureForOpenAI
  let b3 := b2.Call (.SetTemperature 0.0)
  let b4 := b3.Call (.SetMaxTokens 8192)
  let b5 :=
    if self.Config.Model.OpNe (TEXT "o1-preview-2024-09-12")
        && self.Config.Model.OpNe (TEXT "o1-mini-2024-09-12") then
      b4.Call .SetJsonResponseFormat
    else b4
  let FinalContent := self.PromptManager.PrependSourceFilesToUserMessage UserMessage
  if bSupportsSystemPrompts then
    (b5.Call (.AddSystemMessage SystemMessage)).Call (.AddUserMessage FinalContent)
  else
    let MergedContent := self.PromptManager.MergePrompts SystemMessage FinalContent
    b5.Call (.AddUserMessage MergedContent)

/-- `UN2COpenAIService::FormatRequestPayload`: the result of `Build()` on the builder;
`Build` belongs to the payload builder and is a parameter. -/
def FormatRequestPayload (Build : UN2CLLMPayloadBuilder → FString) (self : UN2COpenAIService)
    (UserMessage SystemMessage : FString) : FString :=
  Build (FormatRequestPayloadBuilder self UserMessage SystemMessage)

/-- The scenario of a service configured with the wire name of `DeepSeek_V3` and no
reference files: prepending leaves the user message as it is; `MergePrompts` is any function. -/
def DeepSeekV3Scenario (MergePrompts : FString → FString → FString) : UN2COpenAIService :=
  { Config := ⟨TEXT "", TEXT "", FN2CLLMModelUtils.GetDeepSeekModelValue EN2CDeepSeekModel.DeepSeek_V3⟩
    OrganizationId := TEXT ""
    PromptManager := ⟨fun UserMessage => UserMessage, MergePrompts⟩ }

end UN2COpenAIService

/-! ## Lemmas on engine strings and maps -/

open FN2CLLMModelUtils

theorem FString.data_append (a b : FString) : (a ++ b).data = a.data ++ b.data := rfl

theorem FString.OpEq_eq (a b : FString) :
    KeyFuncs.Matches a b
      = decide (a.Folded ESearchCase.IgnoreCase = b.Folded ESearchCase.IgnoreCase) := rfl

theorem TMap.findPair_addPair {K V N : Type} [KeyFuncs K] [DecidableEq N] (norm : K → N)
    (hm : ∀ a b : K, KeyFuncs.Matches a b = decide (norm a = norm b))
    (k k' : K) (v : V) (l : List (K × V)) :
    TMap.findPair k' (TMap.addPair k v l)
      = if KeyFuncs.Matches k k' then some v else TMap.findPair k' l := by
  induction l with
  | nil => simp [TMap.addPair, TMap.findPair]
  | cons p rest ih =>
    by_cases h1 : norm p.1 = norm k <;> by_cases h2 : norm k = norm k' <;>
      by_cases h3 : norm p.1 = norm k' <;>
      simp_all [TMap.addPair, TMap.findPair]

/-- `Find` after `Add` on a map keyed by engine strings. -/
theorem TMap.Find_Add_FString {V : Type} (m : TMap FString V) (k k' : FString) (v : V) :
    (m.Add k v).Find k' = if k.OpEq k' then some v else m.Find k' :=
  TMap.findPair_addPair (fun s : FString => s.Folded ESearchCase.IgnoreCase)
    FString.OpEq_eq k k' v m.Pairs

/-- `Find` after `Add` on a map keyed by `EN2COpenAIModel`. -/
theorem TMap.Find_Add_OpenAI {V : Type} (m : TMap EN2COpenAIModel V)
    (k k' : EN2COpenAIModel) (v : V) :
    (m.Add k v).Find k' = if k = k' then some v else m.Find k' := by
  have h := TMap.findPair_addPair (fun a : EN2COpenAIModel => a) (fun _ _ => rfl) k k' v m.Pairs
  simpa [TMap.Find, TMap.Add, KeyFuncs.Matches] using h

/-- `Find` after `Add` on a map keyed by `EN2CDeepSeekModel`. -/
theorem TMap.Find_Add_DeepSeek {V : Type} (m : TMap EN2CDeepSeekModel V)
    (k k' : EN2CDeepSeekModel) (v : V) :
    (m.Add k v).Find k' = if k = k' then some v else m.Find k' := by
  have h := TMap.findPair_addPair (fun a : EN2CDeepSeekModel => a) (fun _ _ => rfl) k k' v m.Pairs
  simpa [TMap.Find, TMap.Add, KeyFuncs.Matches] using h

/-- The static map `OpenAIPricing` holds the pairs of its initializer list. -/
theorem OpenAIPricing_Pairs :
    OpenAIPricing.Pairs = [(EN2COpenAIModel.GPT_5_3_Codex, ⟨0.0, 0.0⟩)] := rfl

/-- The static map `DeepSeekPricing` holds the pairs of its initializer list. -/
theorem DeepSeekPricing_Pairs :
    DeepSeekPricing.Pairs
      = [(EN2CDeepSeekModel.DeepSeek_R1, ⟨0.14, 0.55⟩),
         (EN2CDeepSeekModel.DeepSeek_V3, ⟨0.07, 0.27⟩)] := rfl

/-- What `GetOpenAIPricing` returns, by cases on the model id. -/
theorem GetOpenAIPricing_eq (m : EN2COpenAIModel) :
    GetOpenAIPricing m
      = if EN2COpenAIModel.GPT_5_3_Codex = m then ⟨0.0, 0.0⟩ else FN2COpenAIPricing.Default := by
  unfold GetOpenAIPricing TMap.Find
  rw [OpenAIPricing_Pairs]
  by_cases h : EN2COpenAIModel.GPT_5_3_Codex = m <;>
    simp [TMap.findPair, KeyFuncs.Matches, h]

/-- What `GetDeepSeekPricing` returns, by cases on the model id. -/
theorem GetDeepSeekPricing_eq (m : EN2CDeepSeekModel) :
    GetDeepSeekPricing m
      = if EN2CDeepSeekModel.DeepSeek_R1 = m then ⟨0.14, 0.55⟩
        else if EN2CDeepSeekModel.DeepSeek_V3 = m then ⟨0.07, 0.27⟩
        else FN2CDeepSeekPricing.Default := by
  unfold GetDeepSeekPricing TMap.Find
  rw [DeepSeekPricing_Pairs]
  by_cases h : EN2CDeepSeekModel.DeepSeek_R1 = m <;>
    by_cases h2 : EN2CDeepSeekModel.DeepSeek_V3 = m <;>
    simp [TMap.findPair, KeyFuncs.Matches, h, h2]

theorem DeepSeek_R1_ne_V3 : EN2CDeepSeekModel.DeepSeek_R1 ≠ EN2CDeepSeekModel.DeepSeek_V3 := by
  decide

/-! ## The model registry: claims C3, C4, C6 -/

/-- C3: the pricing lookups are total functions into the pricing entries; for a model id
with a pair in the static pricing map they return the value of that pair, and for a model
id with no pair (any other byte of the enum) they return the zero-cost entry. -/
theorem C3_pricing_lookup_never_fails :
    (∀ (m : EN2COpenAIModel) (e : FN2COpenAIPricing),
        (m, e) ∈ OpenAIPricing.Pairs → GetOpenAIPricing m = e) ∧
    (∀ m : EN2COpenAIModel,
        (∀ e, (m, e) ∉ OpenAIPricing.Pairs) → GetOpenAIPricing m = ⟨0.0, 0.0⟩) ∧
    (∀ (m : EN2CDeepSeekModel) (e : FN2CDeepSeekPricing),
        (m, e) ∈ DeepSeekPricing.Pairs → GetDeepSeekPricing m = e) ∧
    (∀ m : EN2CDeepSeekModel,
        (∀ e, (m, e) ∉ DeepSeekPricing.Pairs) → GetDeepSeekPricing m = ⟨0.0, 0.0⟩) := by
  refine ⟨?_, ?_, ?_, ?_⟩
  · intro m e h
    rw [OpenAIPricing_Pairs] at h
    simp only [List.mem_singleton, Prod.mk.injEq] at h
    obtain ⟨rfl, rfl⟩ := h
    rw [GetOpenAIPricing_eq, if_pos rfl]
  · intro m h
    rw [OpenAIPricing_Pairs] at h
    have hm : EN2COpenAIModel.GPT_5_3_Codex ≠ m := by
      intro hc
      exact h ⟨0.0, 0.0⟩ (by rw [← hc]; exact List.mem_singleton.mpr rfl)
    rw [GetOpenAIPricing_eq, if_neg hm]
    rfl
  · intro m e h
    rw [DeepSeekPricing_Pairs] at h
    simp only [List.mem_cons, Prod.mk.injEq, List.mem_singleton, List.not_mem_nil,
      or_false] at h
    rcases h with ⟨rfl, rfl⟩ | ⟨rfl, rfl⟩
    · rw [GetDeepSeekPricing_eq, if_pos rfl]
    · rw [GetDeepSeekPricing_eq, if_neg DeepSeek_R1_ne_V3, if_pos rfl]
  · intro m h
    rw [DeepSeekPricing_Pairs] at h
    have h1 : EN2CDeepSeekModel.DeepSeek_R1 ≠ m := by
      intro hc
      exact h ⟨0.14, 0.55⟩ (by rw [← hc]; exact List.mem_cons_self _ _)
    have h2 : EN2CDeepSeekModel.DeepSeek_V3 ≠ m := by
      intro hc
      exact h ⟨0.07, 0.27⟩
        (by rw [← hc]; exact List.mem_cons_of_mem _ (List.mem_singleton.mpr rfl))
    rw [GetDeepSeekPricing_eq, if_neg h1, if_neg h2]
    rfl

/-- C3, at concrete ids: `DeepSeek_V3` has a pair and the lookup returns it; the byte 7 is
no declared DeepSeek model, has no pair, and the lookup returns the zero-cost entry. -/
theorem C3_pricing_lookup_witness :
    GetDeepSeekPricing EN2CDeepSeekModel.DeepSeek_V3 = ⟨0.07, 0.27⟩ ∧
    GetDeepSeekPricing ⟨7⟩ = ⟨0.0, 0.0⟩ ∧
    GetOpenAIPricing ⟨200⟩ = ⟨0.0, 0.0⟩ :=
  ⟨C3_pricing_lookup_never_fails.2.2.1 _ _
      (by rw [DeepSeekPricing_Pairs]; exact List.mem_cons_of_mem _ (List.mem_singleton.mpr rfl)),
   C3_pricing_lookup_never_fails.2.2.2 ⟨7⟩
      (by rw [DeepSeekPricing_Pairs]; intro e he; simp [EN2CDeepSeekModel.DeepSeek_R1,
        EN2CDeepSeekModel.DeepSeek_V3] at he),
   C3_pricing_lookup_never_fails.2.1 ⟨200⟩
      (by rw [OpenAIPricing_Pairs]; intro e he; simp [EN2COpenAIModel.GPT_5_3_Codex] at he)⟩

/-- C4: each model the registry enums declare has exactly one pair in the static pricing
map of its provider, the maps hold no pair for an id that is not a declared model, and so
`Find` on a declared model succeeds (the lookup does not take its default branch). -/
theorem C4_declared_model_has_one_pricing_entry :
    (∀ m ∈ EN2COpenAIModel.Declared.map Prod.fst,
        (OpenAIPricing.Pairs.filter (fun p => decide (p.1 = m))).length = 1 ∧
        ∃ e, OpenAIPricing.Find m = some e ∧ GetOpenAIPricing m = e) ∧
    (∀ p ∈ OpenAIPricing.Pairs, p.1 ∈ EN2COpenAIModel.Declared.map Prod.fst) ∧
    (∀ m ∈ EN2CDeepSeekModel.Declared.map Prod.fst,
        (DeepSeekPricing.Pairs.filter (fun p => decide (p.1 = m))).length = 1 ∧
        ∃ e, DeepSeekPricing.Find m = some e ∧ GetDeepSeekPricing m = e) ∧
    (∀ p ∈ DeepSeekPricing.Pairs, p.1 ∈ EN2CDeepSeekModel.Declared.map Prod.fst) := by
  refine ⟨?_, ?_, ?_, ?_⟩
  · intro m hm
    simp only [EN2COpenAIModel.Declared, List.map_cons, List.map_nil,
      List.mem_singleton] at hm
    subst hm
    refine ⟨rfl, ⟨0.0, 0.0⟩, rfl, rfl⟩
  · intro p hp
    rw [OpenAIPricing_Pairs] at hp
    simp only [List.mem_singleton] at hp
    subst hp
    simp [EN2COpenAIModel.Declared]
  · intro m hm
    simp only [EN2CDeepSeekModel.Declared, List.map_cons, List.map_nil, List.mem_cons,
      List.mem_singleton, List.not_mem_nil, or_false] at hm
    rcases hm with rfl | rfl
    · exact ⟨rfl, ⟨0.14, 0.55⟩, rfl, rfl⟩
    · exact ⟨rfl, ⟨0.07, 0.27⟩, rfl, rfl⟩
  · intro p hp
    rw [DeepSeekPricing_Pairs] at hp
    simp only [List.mem_cons, List.mem_singleton, List.not_mem_nil, or_false] at hp
    rcases hp with rfl | rfl <;> simp [EN2CDeepSeekModel.Declared]

/-- C4, at the declared model `DeepSeek_V3`: one pair, and the lookup finds it. -/
theorem C4_declared_model_witness :
    (DeepSeekPricing.Pairs.filter
        (fun p => decide (p.1 = EN2CDeepSeekModel.DeepSeek_V3))).length = 1 ∧
    ∃ e, DeepSeekPricing.Find EN2CDeepSeekModel.DeepSeek_V3 = some e ∧
      GetDeepSeekPricing EN2CDeepSeekModel.DeepSeek_V3 = e :=
  C4_declared_model_has_one_pricing_entry.2.2.1 EN2CDeepSeekModel.DeepSeek_V3
    (by simp [EN2CDeepSeekModel.Declared])

/-- C6: the wire name of every registry model is the `Value` declared on its enum entry:
`gpt-5.3-codex`, `deepseek-reasoner`, `deepseek-chat`; distinct declared DeepSeek models
have distinct wire names; `GetActiveModel` returns `gpt-5.3-codex`. -/
theorem C6_wire_name_is_declared_value :
    (∀ p ∈ EN2COpenAIModel.Declared, GetOpenAIModelValue p.1 = p.2.Value) ∧
    (∀ p ∈ EN2CDeepSeekModel.Declared, GetDeepSeekModelValue p.1 = p.2.Value) ∧
    GetOpenAIModelValue EN2COpenAIModel.GPT_5_3_Codex = TEXT "gpt-5.3-codex" ∧
    GetDeepSeekModelValue EN2CDeepSeekModel.DeepSeek_R1 = TEXT "deepseek-reasoner" ∧
    GetDeepSeekModelValue EN2CDeepSeekModel.DeepSeek_V3 = TEXT "deepseek-chat" ∧
    (∀ p ∈ EN2CDeepSeekModel.Declared, ∀ q ∈ EN2CDeepSeekModel.Declared,
        p.1 ≠ q.1 → GetDeepSeekModelValue p.1 ≠ GetDeepSeekModelValue q.1) ∧
    (∀ s : UN2CSettings, s.GetActiveModel = TEXT "gpt-5.3-codex") := by
  refine ⟨?_, ?_, rfl, rfl, rfl, ?_, fun _ => rfl⟩
  · intro p hp
    simp only [EN2COpenAIModel.Declared, List.mem_singleton] at hp
    subst hp
    rfl
  · intro p hp
    simp only [EN2CDeepSeekModel.Declared, List.mem_cons, List.mem_singleton,
      List.not_mem_nil, or_false] at hp
    rcases hp with rfl | rfl <;> rfl
  · intro p hp q hq hne
    simp only [EN2CDeepSeekModel.Declared, List.mem_cons, List.mem_singleton,
      List.not_mem_nil, or_false] at hp hq
    rcases hp with rfl | rfl <;> rcases hq with rfl | rfl
    · exact absurd rfl hne
    · decide
    · decide
    · exact absurd rfl hne

/-- C6, at the two declared DeepSeek models: their wire names differ. -/
theorem C6_wire_name_witness :
    GetDeepSeekModelValue EN2CDeepSeekModel.DeepSeek_R1
      ≠ GetDeepSeekModelValue EN2CDeepSeekModel.DeepSeek_V3 :=
  C6_wire_name_is_declared_value.2.2.2.2.2.1
    (EN2CDeepSeekModel.DeepSeek_R1, ⟨TEXT "DeepSeek R1", TEXT "deepseek-reasoner"⟩)
    (by simp [EN2CDeepSeekModel.Declared])
    (EN2CDeepSeekModel.DeepSeek_V3, ⟨TEXT "DeepSeek V3", TEXT "deepseek-chat"⟩)
    (by simp [EN2CDeepSeekModel.Declared])
    (by decide)

/-! ## The settings: claims C10, C8, C9 -/

/-- What `InitializePricing` leaves in the OpenAI settings map. -/
theorem InitializePricing_OpenAI (s : UN2CSettings) (m : EN2COpenAIModel) :
    s.InitializePricing.OpenAIModelPricing.Find m
      = if EN2COpenAIModel.GPT_5_3_Codex = m then some ⟨0.0, 0.0⟩
        else s.OpenAIModelPricing.Find m := by
  simp only [UN2CSettings.InitializePricing, TMap.Find_Add_OpenAI]

/-- What `InitializePricing` leaves in the DeepSeek settings map. -/
theorem InitializePricing_DeepSeek (s : UN2CSettings) (m : EN2CDeepSeekModel) :
    s.InitializePricing.DeepSeekModelPricing.Find m
      = if EN2CDeepSeekModel.DeepSeek_V3 = m then some ⟨0.14, 0.28⟩
        else if EN2CDeepSeekModel.DeepSeek_R1 = m then some ⟨0.55, 2.19⟩
        else s.DeepSeekModelPricing.Find m := by
  simp only [UN2CSettings.InitializePricing, TMap.Find_Add_DeepSeek]

/-- C10, refuted as stated: for `DeepSeek_R1` the default entry `InitializePricing` stores
is `(0.55, 2.19)` while the registry lookup returns `(0.14, 0.55)`, and for `DeepSeek_V3`
the stored entry is `(0.14, 0.28)` while the registry returns `(0.07, 0.27)`; neither the
input nor the output costs agree. -/
theorem C10_counterexample_deepseek_defaults_differ :
    UN2CSettings.Blank.InitializePricing.DeepSeekModelPricing.Find
        EN2CDeepSeekModel.DeepSeek_R1 = some ⟨0.55, 2.19⟩ ∧
    GetDeepSeekPricing EN2CDeepSeekModel.DeepSeek_R1 = ⟨0.14, 0.55⟩ ∧
    (0.55 : ℚ) ≠ 0.14 ∧ (2.19 : ℚ) ≠ 0.55 ∧
    UN2CSettings.Blank.InitializePricing.DeepSeekModelPricing.Find
        EN2CDeepSeekModel.DeepSeek_V3 = some ⟨0.14, 0.28⟩ ∧
    GetDeepSeekPricing EN2CDeepSeekModel.DeepSeek_V3 = ⟨0.07, 0.27⟩ ∧
    (0.14 : ℚ) ≠ 0.07 ∧ (0.28 : ℚ) ≠ 0.27 := by
  refine ⟨rfl, rfl, ?_, ?_, rfl, rfl, ?_, ?_⟩ <;> norm_num

/-- C10, amended: from any settings state, the default entry `InitializePricing` stores for
the OpenAI model `GPT_5_3_Codex` equals the entry `GetOpenAIPricing` returns for it (input
and output cost both 0.0); for the DeepSeek models it stores `DeepSeek_R1 -> (0.55, 2.19)`
and `DeepSeek_V3 -> (0.14, 0.28)`, defaults of the settings that are kept apart from the
registry entries `(0.14, 0.55)` and `(0.07, 0.27)`. -/
theorem C10_settings_defaults_vs_registry (s : UN2CSettings) :
    (∃ e, s.InitializePricing.OpenAIModelPricing.Find EN2COpenAIModel.GPT_5_3_Codex = some e ∧
        e.InputCost = (GetOpenAIPricing EN2COpenAIModel.GPT_5_3_Codex).InputCost ∧
        e.OutputCost = (GetOpenAIPricing EN2COpenAIModel.GPT_5_3_Codex).OutputCost ∧
        e.InputCost = 0.0 ∧ e.OutputCost = 0.0) ∧
    s.InitializePricing.DeepSeekModelPricing.Find EN2CDeepSeekModel.DeepSeek_R1
      = some ⟨0.55, 2.19⟩ ∧
    s.InitializePricing.DeepSeekModelPricing.Find EN2CDeepSeekModel.DeepSeek_V3
      = some ⟨0.14, 0.28⟩ ∧
    GetDeepSeekPricing EN2CDeepSeekModel.DeepSeek_R1 = ⟨0.14, 0.55⟩ ∧
    GetDeepSeekPricing EN2CDeepSeekModel.DeepSeek_V3 = ⟨0.07, 0.27⟩ := by
  refine ⟨⟨⟨0.0, 0.0⟩, ?_, rfl, rfl, rfl, rfl⟩, ?_, ?_, rfl, rfl⟩
  · rw [InitializePricing_OpenAI, if_pos rfl]
  · rw [InitializePricing_DeepSeek, if_neg (Ne.symm DeepSeek_R1_ne_V3), if_pos rfl]
  · rw [InitializePricing_DeepSeek, if_pos rfl]

/-- The loop of `ValidateReferenceSourcePaths` keeps, after what was already collected,
the paths whose file exists, in order. -/
theorem ValidateStep_foldl_fst (FileExists : FString → Bool) (l : List FFilePath)
    (acc : List FFilePath × List FString) :
    (l.foldl (UN2CSettings.ValidateStep FileExists) acc).1
      = acc.1 ++ l.filter (fun p => FileExists p.FilePath) := by
  induction l generalizing acc with
  | nil => simp
  | cons p rest ih =>
    rw [List.foldl_cons, ih]
    by_cases h : FileExists p.FilePath = true
    · simp [UN2CSettings.ValidateStep, h]
    · simp [UN2CSettings.ValidateStep, h]

/-- The settings `ValidateReferenceSourcePaths` returns: only the reference paths change,
to the paths whose file exists. -/
theorem ValidateReferenceSourcePaths_fst (FileExists DirectoryExists : FString → Bool)
    (s : UN2CSettings) :
    (s.ValidateReferenceSourcePaths FileExists DirectoryExists).1
      = { s with ReferenceSourceFilePaths :=
            s.ReferenceSourceFilePaths.filter (fun p => FileExists p.FilePath) } := by
  simp [UN2CSettings.ValidateReferenceSourcePaths, ValidateStep_foldl_fst]

/-- C8, refuted as stated: with the same existing file listed twice, the list after
`ValidateReferenceSourcePaths` still holds it twice. -/
theorem C8_counterexample_duplicate_path_kept :
    ((UN2CSettings.WithPaths [⟨TEXT "Ref.h"⟩, ⟨TEXT "Ref.h"⟩]).ValidateReferenceSourcePaths
        (fun _ => true) (fun _ => true)).1.ReferenceSourceFilePaths
      = [⟨TEXT "Ref.h"⟩, ⟨TEXT "Ref.h"⟩] ∧
    ¬ ((UN2CSettings.WithPaths [⟨TEXT "Ref.h"⟩, ⟨TEXT "Ref.h"⟩]).ValidateReferenceSourcePaths
        (fun _ => true) (fun _ => true)).1.ReferenceSourceFilePaths.Nodup := by
  constructor
  · rfl
  · rw [ValidateReferenceSourcePaths_fst]
    simp [UN2CSettings.WithPaths]

/-- C8, amended: `ValidateReferenceSourcePaths` does not deduplicate, it only drops paths:
a path whose file exists occurs after it as often as before, a path whose file is missing
does not occur; so when no path is repeated in the initial list, none is repeated after. -/
theorem C8_validate_keeps_multiplicity (FileExists DirectoryExists : FString → Bool)
    (s : UN2CSettings) :
    (∀ p : FFilePath,
        (s.ValidateReferenceSourcePaths FileExists DirectoryExists).1.ReferenceSourceFilePaths.count p
          = if FileExists p.FilePath then s.ReferenceSourceFilePaths.count p else 0) ∧
    (s.ReferenceSourceFilePaths.Nodup →
        (s.ValidateReferenceSourcePaths FileExists DirectoryExists).1.ReferenceSourceFilePaths.Nodup) := by
  rw [ValidateReferenceSourcePaths_fst]
  constructor
  · intro p
    by_cases h : FileExists p.FilePath = true
    · simp only [h, if_true]
      exact List.count_filter (by simpa using h)
    · rw [if_neg h, List.count_eq_zero]
      intro hp
      exact h (by simpa using (List.mem_filter.mp hp).2)
  · intro hn
    exact hn.filter _

/-- C8 amended, at a concrete list: `A.h` and `B.h` listed once each, only `A.h` on disk;
no path is repeated after validation. -/
theorem C8_validate_keeps_multiplicity_witness :
    ((UN2CSettings.WithPaths [⟨TEXT "A.h"⟩, ⟨TEXT "B.h"⟩]).ValidateReferenceSourcePaths
        (fun f => decide (f = TEXT "A.h")) (fun _ => true)).1.ReferenceSourceFilePaths.Nodup :=
  (C8_validate_keeps_multiplicity (fun f => decide (f = TEXT "A.h")) (fun _ => true)
    (UN2CSettings.WithPaths [⟨TEXT "A.h"⟩, ⟨TEXT "B.h"⟩])).2 (by decide)

/-- C9: for every initial list and every file-existence predicate,
`ValidateReferenceSourcePaths` returns (it is a total function), leaves in
`ReferenceSourceFilePaths` exactly the entries of the initial list whose file exists, in
their original order, leaves the other members alone, and a second run with the same
file-existence predicate changes nothing in the settings. -/
theorem C9_validate_filters_and_is_idempotent (FileExists DirectoryExists DirectoryExists2 :
    FString → Bool) (s : UN2CSettings) :
    (s.ValidateReferenceSourcePaths FileExists DirectoryExists).1.ReferenceSourceFilePaths
      = s.ReferenceSourceFilePaths.filter (fun p => FileExists p.FilePath) ∧
    (s.ValidateReferenceSourcePaths FileExists DirectoryExists).1
      = { s with ReferenceSourceFilePaths :=
            s.ReferenceSourceFilePaths.filter (fun p => FileExists p.FilePath) } ∧
    ((s.ValidateReferenceSourcePaths FileExists DirectoryExists).1.ValidateReferenceSourcePaths
        FileExists DirectoryExists2).1
      = (s.ValidateReferenceSourcePaths FileExists DirectoryExists).1 := by
  refine ⟨?_, ValidateReferenceSourcePaths_fst _ _ _, ?_⟩
  · rw [ValidateReferenceSourcePaths_fst]
  · rw [ValidateReferenceSourcePaths_fst, ValidateReferenceSourcePaths_fst]
    simp [List.filter_filter]

/-- C9, at concrete lists: the empty list stays empty; of `Gone.h`, `A.h`, `Gone.h`, `B.h`
with only `A.h` and `B.h` on disk, `A.h` and `B.h` remain in that order; a list whose
files are all missing becomes empty. -/
theorem C9_validate_witness :
    ((UN2CSettings.WithPaths []).ValidateReferenceSourcePaths
        (fun _ => false) (fun _ => false)).1.ReferenceSourceFilePaths = [] ∧
    ((UN2CSettings.WithPaths
        [⟨TEXT "Gone.h"⟩, ⟨TEXT "A.h"⟩, ⟨TEXT "Gone.h"⟩, ⟨TEXT "B.h"⟩]).ValidateReferenceSourcePaths
        (fun f => decide (f = TEXT "A.h") || decide (f = TEXT "B.h"))
        (fun _ => false)).1.ReferenceSourceFilePaths = [⟨TEXT "A.h"⟩, ⟨TEXT "B.h"⟩] ∧
    ((UN2CSettings.WithPaths [⟨TEXT "Gone.h"⟩]).ValidateReferenceSourcePaths
        (fun _ => false) (fun _ => false)).1.ReferenceSourceFilePaths = [] :=
  ⟨(C9_validate_filters_and_is_idempotent (fun _ => false) (fun _ => false) (fun _ => false)
      (UN2CSettings.WithPaths [])).1.trans rfl,
   (C9_validate_filters_and_is_idempotent
      (fun f => decide (f = TEXT "A.h") || decide (f = TEXT "B.h")) (fun _ => false)
      (fun _ => false)
      (UN2CSettings.WithPaths
        [⟨TEXT "Gone.h"⟩, ⟨TEXT "A.h"⟩, ⟨TEXT "Gone.h"⟩, ⟨TEXT "B.h"⟩])).1.trans (by decide),
   (C9_validate_filters_and_is_idempotent (fun _ => false) (fun _ => false) (fun _ => false)
      (UN2CSettings.WithPaths [⟨TEXT "Gone.h"⟩])).1.trans rfl⟩

/-! ## The OpenAI service: claims C1, C2, C7, C5 -/

/-- The messages `FormatRequestPayload` has added to the builder when it calls `Build()`. -/
theorem FormatRequestPayloadBuilder_Messages (self : UN2COpenAIService)
    (UserMessage SystemMessage : FString) :
    (self.FormatRequestPayloadBuilder UserMessage SystemMessage).Messages
      = if SupportsSystemPromptsForModel self.Config.Model then
          [⟨Role.system, SystemMessage⟩,
           ⟨Role.user, self.PromptManager.PrependSourceFilesToUserMessage UserMessage⟩]
        else
          [⟨Role.user, self.PromptManager.MergePrompts SystemMessage
              (self.PromptManager.PrependSourceFilesToUserMessage UserMessage)⟩] := by
  unfold UN2COpenAIService.FormatRequestPayloadBuilder
  by_cases h : SupportsSystemPromptsForModel self.Config.Model = true <;>
    by_cases hj : (self.Config.Model.OpNe (TEXT "o1-preview-2024-09-12")
        && self.Config.Model.OpNe (TEXT "o1-mini-2024-09-12")) = true <;>
    simp [h, hj, UN2CLLMPayloadBuilder.Call, UN2CLLMPayloadBuilder.Messages,
      PayloadBuilderCall.Message?, List.filterMap_cons]

/-- A name that starts with a given text case-sensitively also starts with it when case is
ignored, for a text that is already lower case. -/
theorem StartsWith_o1_IgnoreCase (s : FString) (c : ESearchCase)
    (h : s.StartsWith (TEXT "o1") c = true) :
    s.StartsWith (TEXT "o1") ESearchCase.IgnoreCase = true := by
  cases c with
  | IgnoreCase => exact h
  | CaseSensitive =>
    simp only [FString.StartsWith, FString.Folded, Bool.and_eq_true, decide_eq_true_eq] at h ⊢
    refine ⟨h.1, ?_⟩
    rw [← List.map_take, h.2]

/-- C1: `FormatRequestPayload` adds exactly one user-role message; it adds a system-role
message iff the capability flag `GetConfiguration` reports for the same `Config.Model` is
true, which is iff the model name does not start with `o1`; then it adds exactly one, and
it is added before the user message. -/
theorem C1_one_user_message_system_iff_supported (self : UN2COpenAIService)
    (UserMessage SystemMessage : FString) :
    ((self.FormatRequestPayloadBuilder UserMessage SystemMessage).MessagesOf Role.user).length = 1 ∧
    ((∃ m ∈ (self.FormatRequestPayloadBuilder UserMessage SystemMessage).Messages,
        m.Role = Role.system) ↔ self.GetConfiguration.OutSupportsSystemPrompts = true) ∧
    self.GetConfiguration.OutSupportsSystemPrompts
      = !(self.Config.Model.StartsWith (TEXT "o1") ESearchCase.IgnoreCase) ∧
    ((self.FormatRequestPayloadBuilder UserMessage SystemMessage).MessagesOf Role.system).length
      = (if self.GetConfiguration.OutSupportsSystemPrompts then 1 else 0) ∧
    (self.FormatRequestPayloadBuilder UserMessage SystemMessage).Messages
      = (if self.GetConfiguration.OutSupportsSystemPrompts then
          [⟨Role.system, SystemMessage⟩,
           ⟨Role.user, self.PromptManager.PrependSourceFilesToUserMessage UserMessage⟩]
        else
          [⟨Role.user, self.PromptManager.MergePrompts SystemMessage
              (self.PromptManager.PrependSourceFilesToUserMessage UserMessage)⟩]) := by
  unfold UN2CLLMPayloadBuilder.MessagesOf
  rw [FormatRequestPayloadBuilder_Messages]
  simp only [UN2COpenAIService.GetConfiguration]
  have hflag : SupportsSystemPromptsForModel self.Config.Model
      = !(self.Config.Model.StartsWith (TEXT "o1") ESearchCase.IgnoreCase) := rfl
  by_cases h : SupportsSystemPromptsForModel self.Config.Model = true
  · have h2 := hflag.symm.trans h
    simp [h, h2]
  · have h2 := hflag.symm.trans (Bool.eq_false_iff.mpr h)
    simp [h, h2]

/-- C1, at concrete services: for model `gpt-5.3-codex` a system message then one user
message; for model `o1-mini` one user message and no system message. -/
theorem C1_one_user_message_witness :
    (UN2COpenAIService.FormatRequestPayloadBuilder
        ⟨⟨TEXT "https://api", TEXT "key", TEXT "gpt-5.3-codex"⟩, TEXT "",
          ⟨fun u => TEXT "[ref]" ++ u, fun a b => a ++ b⟩⟩
        (TEXT "user") (TEXT "sys")).Messages
      = [⟨Role.system, TEXT "sys"⟩, ⟨Role.user, TEXT "[ref]user"⟩] ∧
    (UN2COpenAIService.FormatRequestPayloadBuilder
        ⟨⟨TEXT "https://api", TEXT "key", TEXT "o1-mini"⟩, TEXT "",
          ⟨fun u => TEXT "[ref]" ++ u, fun a b => a ++ b⟩⟩
        (TEXT "user") (TEXT "sys")).Messages
      = [⟨Role.user, TEXT "sys[ref]user"⟩] :=
  ⟨(C1_one_user_message_system_iff_supported
      ⟨⟨TEXT "https://api", TEXT "key", TEXT "gpt-5.3-codex"⟩, TEXT "",
        ⟨fun u => TEXT "[ref]" ++ u, fun a b => a ++ b⟩⟩
      (TEXT "user") (TEXT "sys")).2.2.2.2.trans (by decide),
   (C1_one_user_message_system_iff_supported
      ⟨⟨TEXT "https://api", TEXT "key", TEXT "o1-mini"⟩, TEXT "",
        ⟨fun u => TEXT "[ref]" ++ u, fun a b => a ++ b⟩⟩
      (TEXT "user") (TEXT "sys")).2.2.2.2.trans (by decide)⟩

/-- The message after the spec's `PrependReferenceFiles` ends with the original message. -/
theorem SpecPrependReferenceFiles_suffix (Files : List ReferenceFile) (UserMessage : FString) :
    UserMessage.data <:+ (SpecPrependReferenceFiles Files UserMessage).data := by
  induction Files with
  | nil => exact List.suffix_refl _
  | cons f rest ih =>
    have h : (SpecPrependReferenceFiles (f :: rest) UserMessage).data
        = (f.Path.data ++ f.Content.data) ++ (SpecPrependReferenceFiles rest UserMessage).data := rfl
    rw [h]
    exact ih.trans (List.suffix_append _ _)

/-- The spec's `Merge` keeps both prompts: the system prompt opens it, the user prompt
closes it. -/
theorem SpecMerge_keeps_both (Delimiter SystemPrompt UserPrompt : FString) :
    SystemPrompt.data <+: (SpecMerge Delimiter SystemPrompt UserPrompt).data ∧
    UserPrompt.data <:+ (SpecMerge Delimiter SystemPrompt UserPrompt).data := by
  have h : (SpecMerge Delimiter SystemPrompt UserPrompt).data
      = SystemPrompt.data ++ Delimiter.data ++ UserPrompt.data := rfl
  rw [h]
  exact ⟨by rw [List.append_assoc]; exact List.prefix_append _ _, List.suffix_append _ _⟩

/-- C2: for a model name that starts with `o1` (under either search case),
`FormatRequestPayload` adds no system-role message: the only message added is one
user-role message whose content is `MergePrompts(S, U')`, `U'` being `U` after the prompt
manager has prepended the reference files; with the prompt manager of the spec (any
reference files, any delimiter) that content contains both `S` and the original `U`. -/
theorem C2_unsupported_model_merges_prompts (self : UN2COpenAIService) (c : ESearchCase)
    (h : self.Config.Model.StartsWith (TEXT "o1") c = true)
    (UserMessage SystemMessage : FString) :
    (self.FormatRequestPayloadBuilder UserMessage SystemMessage).Messages
      = [⟨Role.user, self.PromptManager.MergePrompts SystemMessage
            (self.PromptManager.PrependSourceFilesToUserMessage UserMessage)⟩] ∧
    (self.FormatRequestPayloadBuilder UserMessage SystemMessage).MessagesOf Role.system = [] ∧
    (∀ (Files : List ReferenceFile) (Delimiter : FString),
      (UN2COpenAIService.FormatRequestPayloadBuilder
          { self with PromptManager := SpecPromptManager Files Delimiter }
          UserMessage SystemMessage).Messages
        = [⟨Role.user, SpecMerge Delimiter SystemMessage
              (SpecPrependReferenceFiles Files UserMessage)⟩] ∧
      SystemMessage.IsSubstringOf
        (SpecMerge Delimiter SystemMessage (SpecPrependReferenceFiles Files UserMessage)) ∧
      UserMessage.IsSubstringOf
        (SpecMerge Delimiter SystemMessage (SpecPrependReferenceFiles Files UserMessage))) := by
  have hs : SupportsSystemPromptsForModel self.Config.Model = false := by
    unfold SupportsSystemPromptsForModel
    rw [StartsWith_o1_IgnoreCase _ c h]
    rfl
  refine ⟨?_, ?_, ?_⟩
  · rw [FormatRequestPayloadBuilder_Messages, hs]
    rfl
  · unfold UN2CLLMPayloadBuilder.MessagesOf
    rw [FormatRequestPayloadBuilder_Messages, hs]
    rfl
  · intro Files Delimiter
    refine ⟨?_, ?_, ?_⟩
    · rw [FormatRequestPayloadBuilder_Messages]
      simp only [hs]
      rfl
    · exact (SpecMerge_keeps_both Delimiter SystemMessage _).1.isInfix
    · exact ((SpecPrependReferenceFiles_suffix Files UserMessage).trans
        (SpecMerge_keeps_both Delimiter SystemMessage _).2).isInfix

/-- C2, at a concrete service: model `o1-mini`, one reference file, a blank-line
delimiter; the one message added is the merged user message, and no system message. -/
theorem C2_unsupported_model_witness :
    (UN2COpenAIService.FormatRequestPayloadBuilder
        ⟨⟨TEXT "https://api", TEXT "key", TEXT "o1-mini"⟩, TEXT "",
          SpecPromptManager [⟨TEXT "A.h", TEXT "int a;"⟩] (TEXT "\n\n")⟩
        (TEXT "Translate") (TEXT "Be terse")).Messages
      = [⟨Role.user, TEXT "Be terse\n\nA.hint a;Translate"⟩] :=
  (C2_unsupported_model_merges_prompts
    ⟨⟨TEXT "https://api", TEXT "key", TEXT "o1-mini"⟩, TEXT "",
      SpecPromptManager [⟨TEXT "A.h", TEXT "int a;"⟩] (TEXT "\n\n")⟩
    ESearchCase.CaseSensitive (by decide) (TEXT "Translate") (TEXT "Be terse")).1.trans
    (by decide)

/-- C7, refuted as stated: the service configured with `deepseek-chat` reports system
prompt support, adds the system message `You are a translator.` and then the user message
`Translate this graph.`; whatever `MergePrompts` computes, the messages added are not the
single merged user message. -/
theorem C7_counterexample_deepseek_chat_gets_system_message :
    FN2CLLMModelUtils.GetDeepSeekModelValue EN2CDeepSeekModel.DeepSeek_V3 = TEXT "deepseek-chat" ∧
    SupportsSystemPromptsForModel (TEXT "deepseek-chat") = true ∧
    ((UN2COpenAIService.DeepSeekV3Scenario (fun a b => a ++ b)).FormatRequestPayloadBuilder
        (TEXT "Translate this graph.") (TEXT "You are a translator.")).Messages
      = [⟨Role.system, TEXT "You are a translator."⟩,
         ⟨Role.user, TEXT "Translate this graph."⟩] ∧
    ¬ ∃ MergePrompts : FString → FString → FString,
      ((UN2COpenAIService.DeepSeekV3Scenario MergePrompts).FormatRequestPayloadBuilder
          (TEXT "Translate this graph.") (TEXT "You are a translator.")).Messages
        = [⟨Role.user,
            MergePrompts (TEXT "You are a translator.") (TEXT "Translate this graph.")⟩] := by
  refine ⟨rfl, by decide, by decide, ?_⟩
  rintro ⟨M, hM⟩
  rw [FormatRequestPayloadBuilder_Messages] at hM
  have hs : SupportsSystemPromptsForModel
      (UN2COpenAIService.DeepSeekV3Scenario M).Config.Model = true :=
    show SupportsSystemPromptsForModel (TEXT "deepseek-chat") = true by decide
  rw [hs] at hM
  simp at hM

/-- C7, amended: with `Config.Model` the wire name `deepseek-chat` of `DeepSeek_V3`, system
prompt `You are a translator.`, user prompt `Translate this graph.` and no reference files,
`FormatRequestPayload` of the OpenAI service treats the model as supporting system prompts
(its name does not start with `o1`) and adds two messages: the system message, then the
user message unchanged; `MergePrompts` plays no part. -/
theorem C7_deepseek_chat_system_then_user (MergePrompts : FString → FString → FString) :
    (UN2COpenAIService.DeepSeekV3Scenario MergePrompts).GetConfiguration.OutSupportsSystemPrompts
      = true ∧
    ((UN2COpenAIService.DeepSeekV3Scenario MergePrompts).FormatRequestPayloadBuilder
        (TEXT "Translate this graph.") (TEXT "You are a translator.")).Messages
      = [⟨Role.system, TEXT "You are a translator."⟩,
         ⟨Role.user, TEXT "Translate this graph."⟩] := by
  have hs : SupportsSystemPromptsForModel
      (UN2COpenAIService.DeepSeekV3Scenario MergePrompts).Config.Model = true :=
    show SupportsSystemPromptsForModel (TEXT "deepseek-chat") = true by decide
  refine ⟨hs, ?_⟩
  rw [FormatRequestPayloadBuilder_Messages, hs]
  rfl

/-- The engine's `operator==` on strings is symmetric. -/
theorem FString.OpEq_comm (a b : FString) : a.OpEq b = b.OpEq a := by
  simp only [FString.OpEq, FString.Equals]
  exact decide_eq_decide.mpr eq_comm

/-- C5: after `GetProviderHeaders` the map binds `Authorization` to `Bearer ` followed by
`Config.ApiKey` and `Content-Type` to `application/json`; it binds `OpenAI-Organization`
to `OrganizationId` when that is non-empty and leaves that binding as it was when it is
empty; the binding of every other key (a key matching none of the header names the call
adds, under the map's own key comparison) is unchanged. -/
theorem C5_provider_headers (self : UN2COpenAIService) (OutHeaders : TMap FString FString) :
    (self.GetProviderHeaders OutHeaders).Find (TEXT "Authorization")
      = some (TEXT "Bearer " ++ self.Config.ApiKey) ∧
    (self.GetProviderHeaders OutHeaders).Find (TEXT "Content-Type")
      = some (TEXT "application/json") ∧
    (self.GetProviderHeaders OutHeaders).Find (TEXT "OpenAI-Organization")
      = (if self.OrganizationId.IsEmpty then OutHeaders.Find (TEXT "OpenAI-Organization")
         else some self.OrganizationId) ∧
    (∀ k : FString, k.OpEq (TEXT "Authorization") = false →
        k.OpEq (TEXT "Content-Type") = false →
        (k.OpEq (TEXT "OpenAI-Organization") = false ∨ self.OrganizationId.IsEmpty = true) →
        (self.GetProviderHeaders OutHeaders).Find k = OutHeaders.Find k) := by
  have e1 : (TEXT "Content-Type").OpEq (TEXT "Authorization") = false := by decide
  have e2 : (TEXT "OpenAI-Organization").OpEq (TEXT "Authorization") = false := by decide
  have e3 : (TEXT "OpenAI-Organization").OpEq (TEXT "Content-Type") = false := by decide
  have e4 : (TEXT "Authorization").OpEq (TEXT "Content-Type") = false := by decide
  have e5 : (TEXT "Authorization").OpEq (TEXT "OpenAI-Organization") = false := by decide
  have e6 : (TEXT "Content-Type").OpEq (TEXT "OpenAI-Organization") = false := by decide
  have r1 : (TEXT "Authorization").OpEq (TEXT "Authorization") = true := by decide
  have r2 : (TEXT "Content-Type").OpEq (TEXT "Content-Type") = true := by decide
  have r3 : (TEXT "OpenAI-Organization").OpEq (TEXT "OpenAI-Organization") = true := by decide
  unfold UN2COpenAIService.GetProviderHeaders
  by_cases hOrg : self.OrganizationId.IsEmpty = true
  · simp only [hOrg, Bool.not_true, Bool.false_eq_true, if_false, if_true,
      TMap.Find_Add_FString, e1, e4, e5, e6, r1, r2]
    refine ⟨trivial, trivial, trivial, ?_⟩
    intro k h1 h2 _
    rw [FString.OpEq_comm] at h1 h2
    simp [h1, h2]
  · have hOrg2 : self.OrganizationId.IsEmpty = false := Bool.eq_false_iff.mpr hOrg
    simp only [hOrg2, Bool.not_false, if_true, Bool.false_eq_true, if_false,
      TMap.Find_Add_FString, e1, e2, e3, r1, r2, r3]
    refine ⟨trivial, trivial, trivial, ?_⟩
    intro k h1 h2 h3
    rcases h3 with h3 | h3
    · rw [FString.OpEq_comm] at h1 h2 h3
      simp [h1, h2, h3]
    · simp at h3

/-- C5, at concrete services: with organization `org-9` and a map that already binds
`X-Trace`, the three headers are bound and `X-Trace` is as before; with no organization,
no organization header is bound. -/
theorem C5_provider_headers_witness :
    (UN2COpenAIService.GetProviderHeaders
        ⟨⟨TEXT "https://api", TEXT "sk-1", TEXT "gpt-5.3-codex"⟩, TEXT "org-9", ⟨id, fun a _ => a⟩⟩
        ⟨[(TEXT "X-Trace", TEXT "1")]⟩).Find (TEXT "X-Trace") = some (TEXT "1") ∧
    (UN2COpenAIService.GetProviderHeaders
        ⟨⟨TEXT "https://api", TEXT "sk-1", TEXT "gpt-5.3-codex"⟩, TEXT "org-9", ⟨id, fun a _ => a⟩⟩
        ⟨[(TEXT "X-Trace", TEXT "1")]⟩).Find (TEXT "Authorization") = some (TEXT "Bearer sk-1") ∧
    (UN2COpenAIService.GetProviderHeaders
        ⟨⟨TEXT "https://api", TEXT "sk-1", TEXT "gpt-5.3-codex"⟩, TEXT "org-9", ⟨id, fun a _ => a⟩⟩
        ⟨[(TEXT "X-Trace", TEXT "1")]⟩).Find (TEXT "OpenAI-Organization") = some (TEXT "org-9") ∧
    (UN2COpenAIService.GetProviderHeaders
        ⟨⟨TEXT "https://api", TEXT "sk-1", TEXT "gpt-5.3-codex"⟩, TEXT "", ⟨id, fun a _ => a⟩⟩
        ⟨[(TEXT "X-Trace", TEXT "1")]⟩).Find (TEXT "OpenAI-Organization") = none :=
  ⟨((C5_provider_headers
      ⟨⟨TEXT "https://api", TEXT "sk-1", TEXT "gpt-5.3-codex"⟩, TEXT "org-9", ⟨id, fun a _ => a⟩⟩
      ⟨[(TEXT "X-Trace", TEXT "1")]⟩).2.2.2 (TEXT "X-Trace") (by decide) (by decide)
      (Or.inl (by decide))).trans (by decide),
   (C5_provider_headers
      ⟨⟨TEXT "https://api", TEXT "sk-1", TEXT "gpt-5.3-codex"⟩, TEXT "org-9", ⟨id, fun a _ => a⟩⟩
      ⟨[(TEXT "X-Trace", TEXT "1")]⟩).1.trans (by decide),
   (C5_provider_headers
      ⟨⟨TEXT "https://api", TEXT "sk-1", TEXT "gpt-5.3-codex"⟩, TEXT "org-9", ⟨id, fun a _ => a⟩⟩
      ⟨[(TEXT "X-Trace", TEXT "1")]⟩).2.2.1.trans (by decide),
   (C5_provider_headers
      ⟨⟨TEXT "https://api", TEXT "sk-1", TEXT "gpt-5.3-codex"⟩, TEXT "", ⟨id, fun a _ => a⟩⟩
      ⟨[(TEXT "X-Trace", TEXT "1")]⟩).2.2.1.trans (by decide)⟩

end N2C
